import Mathlib

namespace Install

/-- Embedded literal content of `README.md` from the FILES table of install.py. -/
def readmeContent : String :=
  "\x23 AI Infrastructure Projects\n\nComplete production-ready AI infrastructure with Kubernetes, Terraform, PyTorch, and modern MLOps tools.\n\n\x23\x23 \u011f\u0178\u0161\u20ac Quick Start\n\n\x60\x60\x60bash\n\x23 One-command installation\ncurl -sSL https://raw.githubusercontent.com/YOUR_USERNAME/ai-infrastructure-projects/main/install.py | python3\n\n\x23 Or clone and run\ngit clone https://github.com/YOUR_USERNAME/ai-infrastructure-projects\ncd ai-infrastructure-projects\n./scripts/quick-start.sh\n\x60\x60\x60\n\n\x23\x23 \u011f\u0178\u201c\xa6 What\x27s Included\n\n- \xe2\u0153\u2026 **Multi-Cloud Kubernetes**: AWS EKS + GCP GKE clusters with Terraform\n- \xe2\u0153\u2026 **Distributed Training**: PyTorch DDP on GPU clusters  \n- \xe2\u0153\u2026 **Inference API**: FastAPI service with auto-scaling\n- \xe2\u0153\u2026 **Monitoring Stack**: Prometheus + Grafana + Loki + custom GPU metrics\n- \xe2\u0153\u2026 **CI/CD Pipeline**: GitHub Actions + ArgoCD GitOps\n- \xe2\u0153\u2026 **Service Mesh**: Istio with canary deployments (optional)\n\n\x23\x23 \u011f\u0178\u2019\xb0 Cost\n\n**Estimated: $70-140/month** with optimizations\n- Free tier eligible for 12 months (AWS) / 90 days (GCP)\n- Auto-scaling to minimize costs\n- Spot/preemptible instances support\n\n\x23\x23 \u011f\u0178\u201c\u0161 Documentation\n\n- [Complete Setup Guide](docs/SETUP_GUIDE.md)\n- [Quick Reference](docs/QUICK_REFERENCE.md)\n- [Architecture Overview](docs/ARCHITECTURE.md)\n- [Troubleshooting](docs/TROUBLESHOOTING.md)\n\n\x23\x23 \u011f\u0178\xaf Next Steps\n\n1. Configure cloud credentials: \x60aws configure\x60 and \x60gcloud auth login\x60\n2. Deploy: \x60./scripts/quick-start.sh\x60\n3. Access services: See port-forward commands in Quick Reference\n\n\x23\x23 \u011f\u0178\u201c\u0160 Architecture\n\n\x60\x60\x60\n\xe2\u201d\u0152\xe2\u201d\u20ac\xe2\u201d\u20ac\xe2\u201d\u20ac\xe2\u201d\u20ac\xe2\u201d\u20ac\xe2\u201d\u20ac\xe2\u201d\u20ac\xe2\u201d\u20ac\xe2\u201d\u20ac\xe2\u201d\u20ac\xe2\u201d\u20ac\xe2\u201d\u20ac\xe2\u201d\u20ac\xe2\u201d\u20ac\xe2\u201d\u20ac\xe2\u201d\u20ac\xe2\u201d\u20ac\xe2\u201d\u20ac\xe2\u201d\u20ac\xe2\u201d\u20ac\xe2\u201d\u20ac\xe2\u201d\u20ac\xe2\u201d\u20ac\xe2\u201d\u20ac\xe2\u201d\u20ac\xe2\u201d\u20ac\xe2\u201d\u20ac\xe2\u201d\u20ac\xe2\u201d\u20ac\xe2\u201d\u20ac\xe2\u201d\u20ac\xe2\u201d\u20ac\xe2\u201d\u20ac\xe2\u201d\u20ac\xe2\u201d\u20ac\xe2\u201d\u20ac\xe2\u201d\u20ac\xe2\u201d\u20ac\xe2\u201d\u20ac\xe2\u201d\u20ac\xe2\u201d\u20ac\xe2\u201d\u20ac\xe2\u201d\u20ac\xe2\u201d\u20ac\xe2\u201d\u20ac\xe2\u201d\u20ac\xe2\u201d\u20ac\xe2\u201d\u20ac\xe2\u201d\u20ac\xe2\u201d\u20ac\xe2\u201d\u20ac\xe2\u201d\u20ac\xe2\u201d\u20ac\xe2\u201d\u20ac\xe2\u201d\u20ac\xe2\u201d\u20ac\xe2\u201d\u20ac\xe2\u201d\n\xe2\u201d\u201a                     Load Balancer                        \xe2\u201d\u201a\n\xe2\u201d\u201d\xe2\u201d\u20ac\xe2\u201d\u20ac\xe2\u201d\u20ac\xe2\u201d\u20ac\xe2\u201d\u20ac\xe2\u201d\u20ac\xe2\u201d\u20ac\xe2\u201d\u20ac\xe2\u201d\u20ac\xe2\u201d\u20ac\xe2\u201d\u20ac\xe2\u201d\u20ac\xe2\u201d\u20ac\xe2\u201d\u20ac\xe2\u201d\u20ac\xe2\u201d\u20ac\xe2\u201d\u20ac\xe2\u201d\u20ac\xe2\u201d\u20ac\xe2\u201d\u20ac\xe2\u201d\xac\xe2\u201d\u20ac\xe2\u201d\u20ac\xe2\u201d\u20ac\xe2\u201d\u20ac\xe2\u201d\u20ac\xe2\u201d\u20ac\xe2\u201d\u20ac\xe2\u201d\u20ac\xe2\u201d\u20ac\xe2\u201d\u20ac\xe2\u201d\u20ac\xe2\u201d\u20ac\xe2\u201d\u20ac\xe2\u201d\u20ac\xe2\u201d\u20ac\xe2\u201d\u20ac\xe2\u201d\u20ac\xe2\u201d\u20ac\xe2\u201d\u20ac\xe2\u201d\u20ac\xe2\u201d\u20ac\xe2\u201d\u20ac\xe2\u201d\u20ac\xe2\u201d\u20ac\xe2\u201d\u20ac\xe2\u201d\u20ac\xe2\u201d\u20ac\xe2\u201d\u20ac\xe2\u201d\u20ac\xe2\u201d\u20ac\xe2\u201d\u20ac\xe2\u201d\u20ac\xe2\u201d\u20ac\xe2\u201d\u20ac\xe2\u201d\u20ac\xe2\u201d\u20ac\xe2\u201d\u02dc\n                     \xe2\u201d\u201a\n        \xe2\u201d\u0152\xe2\u201d\u20ac\xe2\u201d\u20ac\xe2\u201d\u20ac\xe2\u201d\u20ac\xe2\u201d\u20ac\xe2\u201d\u20ac\xe2\u201d\u20ac\xe2\u201d\u20ac\xe2\u201d\u20ac\xe2\u201d\u20ac\xe2\u201d\u20ac\xe2\u201d\u20ac\xe2\u201d\xb4\xe2\u201d\u20ac\xe2\u201d\u20ac\xe2\u201d\u20ac\xe2\u201d\u20ac\xe2\u201d\u20ac\xe2\u201d\u20ac\xe2\u201d\u20ac\xe2\u201d\u20ac\xe2\u201d\u20ac\xe2\u201d\u20ac\xe2\u201d\u20ac\xe2\u201d\u20ac\xe2\u201d\n        \xe2\u201d\u201a                         \xe2\u201d\u201a\n   \xe2\u201d\u0152\xe2\u201d\u20ac\xe2\u201d\u20ac\xe2\u201d\u20ac\xe2\u201d\u20ac\xe2\u2013\xbc\xe2\u201d\u20ac\xe2\u201d\u20ac\xe2\u201d\u20ac\xe2\u201d\u20ac\xe2\u201d\u20ac\xe2\u201d            \xe2\u201d\u0152\xe2\u201d\u20ac\xe2\u201d\u20ac\xe2\u201d\u20ac\xe2\u201d\u20ac\xe2\u201d\u20ac\xe2\u2013\xbc\xe2\u201d\u20ac\xe2\u201d\u20ac\xe2\u201d\u20ac\xe2\u201d\u20ac\xe2\u201d\n   \xe2\u201d\u201a   AWS    \xe2\u201d\u201a            \xe2\u201d\u201a   GCP    \xe2\u201d\u201a\n   \xe2\u201d\u201a   EKS    \xe2\u201d\u201a            \xe2\u201d\u201a   GKE    \xe2\u201d\u201a\n   \xe2\u201d\u201d\xe2\u201d\u20ac\xe2\u201d\u20ac\xe2\u201d\u20ac\xe2\u201d\u20ac\xe2\u201d\xac\xe2\u201d\u20ac\xe2\u201d\u20ac\xe2\u201d\u20ac\xe2\u201d\u20ac\xe2\u201d\u20ac\xe2\u201d\u02dc            \xe2\u201d\u201d\xe2\u201d\u20ac\xe2\u201d\u20ac\xe2\u201d\u20ac\xe2\u201d\u20ac\xe2\u201d\u20ac\xe2\u201d\xac\xe2\u201d\u20ac\xe2\u201d\u20ac\xe2\u201d\u20ac\xe2\u201d\u20ac\xe2\u201d\u02dc\n        \xe2\u201d\u201a                         \xe2\u201d\u201a\n   \xe2\u201d\u0152\xe2\u201d\u20ac\xe2\u201d\u20ac\xe2\u201d\u20ac\xe2\u201d\u20ac\xe2\u2013\xbc\xe2\u201d\u20ac\xe2\u201d\u20ac\xe2\u201d\u20ac\xe2\u201d\u20ac\xe2\u201d\u20ac\xe2\u201d\u20ac\xe2\u201d\u20ac\xe2\u201d\u20ac\xe2\u201d\u20ac\xe2\u201d\u20ac\xe2\u201d\u20ac\xe2\u201d\u20ac\xe2\u201d\u20ac\xe2\u201d\u20ac\xe2\u201d\u20ac\xe2\u201d\u20ac\xe2\u201d\u20ac\xe2\u201d\u20ac\xe2\u201d\u20ac\xe2\u201d\u20ac\xe2\u201d\u20ac\xe2\u201d\u20ac\xe2\u201d\xac\xe2\u201d\u20ac\xe2\u201d\u20ac\xe2\u2013\xbc\xe2\u201d\u20ac\xe2\u201d\u20ac\xe2\u201d\u20ac\xe2\u201d\u20ac\xe2\u201d\n   \xe2\u201d\u201a  Inference API (FastAPI)  \xe2\u201d\u201a  GPU  \xe2\u201d\u201a\n   \xe2\u201d\u201a  + Redis Cache            \xe2\u201d\u201a Nodes \xe2\u201d\u201a\n   \xe2\u201d\u0153\xe2\u201d\u20ac\xe2\u201d\u20ac\xe2\u201d\u20ac\xe2\u201d\u20ac\xe2\u201d\u20ac\xe2\u201d\u20ac\xe2\u201d\u20ac\xe2\u201d\u20ac\xe2\u201d\u20ac\xe2\u201d\u20ac\xe2\u201d\u20ac\xe2\u201d\u20ac\xe2\u201d\u20ac\xe2\u201d\u20ac\xe2\u201d\u20ac\xe2\u201d\u20ac\xe2\u201d\u20ac\xe2\u201d\u20ac\xe2\u201d\u20ac\xe2\u201d\u20ac\xe2\u201d\u20ac\xe2\u201d\u20ac\xe2\u201d\u20ac\xe2\u201d\u20ac\xe2\u201d\u20ac\xe2\u201d\u20ac\xe2\u201d\u20ac\xe2\u201d\xb4\xe2\u201d\u20ac\xe2\u201d\u20ac\xe2\u201d\u20ac\xe2\u201d\u20ac\xe2\u201d\u20ac\xe2\u201d\u20ac\xe2\u201d\u20ac\xe2\u201d\xa4\n   \xe2\u201d\u201a    Monitoring (Prometheus)        \xe2\u201d\u201a\n   \xe2\u201d\u201a    Logging (Loki)                 \xe2\u201d\u201a\n   \xe2\u201d\u201a    Dashboards (Grafana)           \xe2\u201d\u201a\n   \xe2\u201d\u201d\xe2\u201d\u20ac\xe2\u201d\u20ac\xe2\u201d\u20ac\xe2\u201d\u20ac\xe2\u201d\u20ac\xe2\u201d\u20ac\xe2\u201d\u20ac\xe2\u201d\u20ac\xe2\u201d\u20ac\xe2\u201d\u20ac\xe2\u201d\u20ac\xe2\u201d\u20ac\xe2\u201d\u20ac\xe2\u201d\u20ac\xe2\u201d\u20ac\xe2\u201d\u20ac\xe2\u201d\u20ac\xe2\u201d\u20ac\xe2\u201d\u20ac\xe2\u201d\u20ac\xe2\u201d\u20ac\xe2\u201d\u20ac\xe2\u201d\u20ac\xe2\u201d\u20ac\xe2\u201d\u20ac\xe2\u201d\u20ac\xe2\u201d\u20ac\xe2\u201d\u20ac\xe2\u201d\u20ac\xe2\u201d\u20ac\xe2\u201d\u20ac\xe2\u201d\u20ac\xe2\u201d\u20ac\xe2\u201d\u20ac\xe2\u201d\u20ac\xe2\u201d\u02dc\n\x60\x60\x60\n\n\x23\x23 \u011f\u0178\xa4 Contributing\n\nContributions welcome! Please open an issue or submit a PR.\n\n\x23\x23 \u011f\u0178\u201c License\n\nMIT License - See LICENSE file\n\n\x23\x23 \u011f\u0178\u2122 Acknowledgments\n\nBuilt with modern cloud-native technologies:\n- Kubernetes, Docker, Terraform\n- PyTorch, FastAPI, Redis\n- Prometheus, Grafana, ArgoCD\n- AWS, GCP, GitHub Actions\n\n---\n\n**\xe2\xad Star this repo if it helped you!**\n"

/-- Embedded literal content of `.gitignore` from the FILES table of install.py. -/
def gitignoreContent : String :=
  "\x23 Terraform\n*.tfstate\n*.tfstate.*\n.terraform/\n.terraform.lock.hcl\nterraform.tfplan\ncrash.log\n*.tfvars.json\noverride.tf\n*_override.tf\n\n\x23 Python\n__pycache__/\n*.py[cod]\n*.so\n.Python\nvenv/\nenv/\n*.egg-info/\n.pytest_cache/\n.coverage\nhtmlcov/\n\n\x23 Secrets & Credentials\n*.pem\n*.key\n*-key.json\nsecrets.yaml\n.env\n.env.local\ncredentials.json\n\n\x23 IDE\n.vscode/\n.idea/\n*.swp\n*.swo\n*~\n.DS_Store\n\n\x23 Kubernetes\n*.kubeconfig\nkubeconfig\n.kube/\n\n\x23 Logs\n*.log\nlogs/\n\n\x23 Build artifacts\ndist/\nbuild/\n*.egg\n\n\x23 Temporary\ntmp/\ntemp/\n*.tmp\n"

/-- Embedded literal content of `LICENSE` from the FILES table of install.py. -/
def licenseContent : String :=
  "MIT License\n\nCopyright (c) 2025 AI Infrastructure Projects\n\nPermission is hereby granted, free of charge, to any person obtaining a copy\nof this software and associated documentation files (the \"Software\"), to deal\nin the Software without restriction, including without limitation the rights\nto use, copy, modify, merge, publish, distribute, sublicense, and/or sell\ncopies of the Software, and to permit persons to whom the Software is\nfurnished to do so, subject to the following conditions:\n\nThe above copyright notice and this permission notice shall be included in all\ncopies or substantial portions of the Software.\n\nTHE SOFTWARE IS PROVIDED \"AS IS\", WITHOUT WARRANTY OF ANY KIND, EXPRESS OR\nIMPLIED, INCLUDING BUT NOT LIMITED TO THE WARRANTIES OF MERCHANTABILITY,\nFITNESS FOR A PARTICULAR PURPOSE AND NONINFRINGEMENT. IN NO EVENT SHALL THE\nAUTHORS OR COPYRIGHT HOLDERS BE LIABLE FOR ANY CLAIM, DAMAGES OR OTHER\nLIABILITY, WHETHER IN AN ACTION OF CONTRACT, TORT OR OTHERWISE, ARISING FROM,\nOUT OF OR IN CONNECTION WITH THE SOFTWARE OR THE USE OR OTHER DEALINGS IN THE\nSOFTWARE.\n"

/-- Embedded literal content of `docs/ARCHITECTURE.md` from the FILES table of install.py. -/
def architectureContent : String :=
  "\x23 Architecture Overview\n\n\x23\x23 System Design\n\nThe AI infrastructure is built on a multi-cloud, microservices architecture designed for:\n- **Scalability**: Auto-scaling inference and training workloads\n- **Reliability**: Multi-region deployment with failover\n- **Observability**: Comprehensive monitoring and logging\n- **Cost-efficiency**: Spot instances and auto-scaling\n\n\x23\x23 Components\n\n\x23\x23\x23 1. Infrastructure Layer (Terraform)\n- **AWS EKS**: Primary Kubernetes cluster\n- **GCP GKE**: Secondary cluster for geo-distribution\n- **Networking**: VPCs, subnets, load balancers\n- **Storage**: S3/GCS for models and data\n\n\x23\x23\x23 2. Compute Layer (Kubernetes)\n- **Control Plane**: Managed by cloud providers\n- **Worker Nodes**: CPU nodes for general workloads\n- **GPU Nodes**: For training and GPU inference\n- **Auto-scaling**: HPA and cluster autoscaler\n\n\x23\x23\x23 3. Application Layer\n- **Training**: Distributed PyTorch jobs\n- **Inference**: FastAPI REST API\n- **Caching**: Redis for prediction caching\n- **Queue**: (Optional) Celery for async tasks\n\n\x23\x23\x23 4. Observability Layer\n- **Metrics**: Prometheus + custom exporters\n- **Visualization**: Grafana dashboards\n- **Logging**: Loki for log aggregation\n- **Alerting**: AlertManager + integrations\n\n\x23\x23\x23 5. CI/CD Layer\n- **Source Control**: GitHub\n- **CI Pipeline**: GitHub Actions\n- **CD/GitOps**: ArgoCD\n- **Service Mesh**: Istio (optional)\n\n\x23\x23 Data Flow\n\n\x23\x23\x23 Training Flow\n\x60\x60\x60\nDeveloper \xe2\u2020\u2019 Git Push \xe2\u2020\u2019 GitHub Actions \xe2\u2020\u2019 Build Container \xe2\u2020\u2019 \nECR/GCR \xe2\u2020\u2019 Kubernetes Job \xe2\u2020\u2019 GPU Nodes \xe2\u2020\u2019 Train Model \xe2\u2020\u2019 \nSave to S3/GCS \xe2\u2020\u2019 Update Model Registry\n\x60\x60\x60\n\n\x23\x23\x23 Inference Flow\n\x60\x60\x60\nUser Request \xe2\u2020\u2019 Load Balancer \xe2\u2020\u2019 Inference API \xe2\u2020\u2019 \nCheck Redis Cache \xe2\u2020\u2019 (if miss) Load Model \xe2\u2020\u2019 \nRun Inference \xe2\u2020\u2019 Cache Result \xe2\u2020\u2019 Return Prediction\n\x60\x60\x60\n\n\x23\x23\x23 Monitoring Flow\n\x60\x60\x60\nAll Services \xe2\u2020\u2019 Prometheus Scrape \xe2\u2020\u2019 Store Metrics \xe2\u2020\u2019\nGrafana Query \xe2\u2020\u2019 Display Dashboards \xe2\u2020\u2019 \nAlertManager \xe2\u2020\u2019 Slack/Email Notifications\n\x60\x60\x60\n\n\x23\x23 Security\n\n- **Network**: Network policies, security groups\n- **Authentication**: RBAC, service accounts\n- **Secrets**: Kubernetes secrets, AWS Secrets Manager\n- **Encryption**: At-rest and in-transit\n- **Scanning**: Container image vulnerability scanning\n\n\x23\x23 High Availability\n\n- **Multi-AZ**: Kubernetes nodes across availability zones\n- **Multi-Region**: Deploy to multiple cloud regions\n- **Health Checks**: Liveness and readiness probes\n- **Auto-recovery**: Kubernetes self-healing\n- **Backups**: Regular snapshots of state\n\n\x23\x23 Scalability\n\n- **Horizontal**: HPA for pods, cluster autoscaler for nodes\n- **Vertical**: Resource requests/limits tuning\n- **Caching**: Redis for frequently accessed predictions\n- **Load Balancing**: Cloud load balancers + Istio\n- **Database**: (If needed) Managed databases with read replicas\n"

/-- Embedded literal content of `docs/TROUBLESHOOTING.md` from the FILES table of install.py. -/
def troubleshootingContent : String :=
  "\x23 Troubleshooting Guide\n\n\x23\x23 Common Issues\n\n\x23\x23\x23 1. Cannot Connect to Kubernetes Cluster\n\n**Symptoms:**\n\x60\x60\x60\nUnable to connect to the server: dial tcp: lookup ... no such host\n\x60\x60\x60\n\n**Solutions:**\n\x60\x60\x60bash\n\x23 Update kubeconfig for AWS\naws eks update-kubeconfig --region us-west-2 --name ai-infrastructure-eks\n\n\x23 Update kubeconfig for GCP  \ngcloud container clusters get-credentials ai-infrastructure-gke \\\n  --zone us-central1-a --project YOUR_PROJECT\n\n\x23 Verify connection\nkubectl get nodes\n\x60\x60\x60\n\n\x23\x23\x23 2. Pods Stuck in Pending State\n\n**Symptoms:**\n\x60\x60\x60\nNAME                    READY   STATUS    RESTARTS   AGE\nai-inference-xxx        0/1     Pending   0          5m\n\x60\x60\x60\n\n**Diagnosis:**\n\x60\x60\x60bash\nkubectl describe pod <pod-name> -n <namespace>\n\x60\x60\x60\n\n**Common Causes:**\n- Insufficient resources\n- Node selector mismatch\n- PVC not bound\n\n**Solutions:**\n\x60\x60\x60bash\n\x23 Check node resources\nkubectl top nodes\n\n\x23 Check node labels\nkubectl get nodes --show-labels\n\n\x23 Scale cluster if needed\n\x23 (Cluster autoscaler should do this automatically)\n\x60\x60\x60\n\n\x23\x23\x23 3. Image Pull Errors\n\n**Symptoms:**\n\x60\x60\x60\nFailed to pull image \"...\": rpc error: code = Unknown\n\x60\x60\x60\n\n**Solutions:**\n\x60\x60\x60bash\n\x23 Check image exists\ndocker pull <image>\n\n\x23 Update image pull secrets\nkubectl create secret docker-registry regcred \\\n  --docker-server=<registry> \\\n  --docker-username=<username> \\\n  --docker-password=<password>\n\n\x23 Verify secret\nkubectl get secrets\n\x60\x60\x60\n\n\x23\x23\x23 4. Terraform State Lock\n\n**Symptoms:**\n\x60\x60\x60\nError: Error acquiring the state lock\n\x60\x60\x60\n\n**Solutions:**\n\x60\x60\x60bash\n\x23 Force unlock (use with caution)\nterraform force-unlock <lock-id>\n\n\x23 Or remove lock file\nrm -rf .terraform/\nterraform init\n\x60\x60\x60\n\n\x23\x23\x23 5. High Cloud Costs\n\n**Diagnosis:**\n\x60\x60\x60bash\n\x23 Check resource usage\nkubectl top nodes\nkubectl top pods --all-namespaces\n\n\x23 List all resources\nkubectl get all --all-namespaces\n\x60\x60\x60\n\n**Solutions:**\n\x60\x60\x60bash\n\x23 Scale down inference\nkubectl scale deployment ai-inference --replicas=1 -n production\n\n\x23 Delete GPU nodes when not training\nkubectl delete nodes -l node-pool=gpu\n\n\x23 Destroy development resources\ncd terraform/aws && terraform destroy\n\x60\x60\x60\n\n\x23\x23\x23 6. Monitoring Not Working\n\n**Symptoms:**\n- Grafana shows no data\n- Prometheus targets down\n\n**Solutions:**\n\x60\x60\x60bash\n\x23 Check Prometheus pods\nkubectl get pods -n monitoring\n\n\x23 Check Prometheus targets\nkubectl port-forward svc/prometheus-kube-prometheus-prometheus 9090:9090 -n monitoring\n\x23 Visit http://localhost:9090/targets\n\n\x23 Restart Prometheus\nkubectl rollout restart statefulset prometheus-kube-prometheus-prometheus -n monitoring\n\n\x23 Check service discovery\nkubectl get servicemonitors -n monitoring\n\x60\x60\x60\n\n\x23\x23\x23 7. Training Jobs Failing\n\n**Diagnosis:**\n\x60\x60\x60bash\n\x23 Check job status\nkubectl get jobs\n\n\x23 View job logs\nkubectl logs job/<job-name>\n\n\x23 Describe job\nkubectl describe job <job-name>\n\x60\x60\x60\n\n**Common Issues:**\n- OOM (Out of Memory)\n- GPU not available\n- Network connectivity\n\n**Solutions:**\n\x60\x60\x60bash\n\x23 Increase memory limits\n\x23 Edit kubernetes/training-job.yaml\n\n\x23 Check GPU availability\nkubectl get nodes -l accelerator=nvidia\n\n\x23 Check GPU plugin\nkubectl get daemonset nvidia-device-plugin-daemonset -n kube-system\n\x60\x60\x60\n\n\x23\x23\x23 8. ArgoCD Sync Issues\n\n**Symptoms:**\n- Application out of sync\n- Sync fails with errors\n\n**Solutions:**\n\x60\x60\x60bash\n\x23 Manual sync\nkubectl port-forward svc/argocd-server 8080:443 -n argocd\n\x23 Visit UI and click \"Sync\"\n\n\x23 Or via CLI\nargocd app sync <app-name>\n\n\x23 Hard refresh\nargocd app get <app-name> --hard-refresh\n\n\x23 Check application health\nargocd app get <app-name>\n\x60\x60\x60\n\n\x23\x23 Getting Help\n\n1. **Check logs**: \x60kubectl logs <pod-name> -n <namespace>\x60\n2. **Describe resources**: \x60kubectl describe <resource> <name> -n <namespace>\x60\n3. **Check events**: \x60kubectl get events -n <namespace> --sort-by=\x27.metadata.creationTimestamp\x27\x60\n4. **Search issues**: Check GitHub issues for similar problems\n5. **Ask community**: Kubernetes Slack, Stack Overflow\n\n\x23\x23 Debug Commands\n\n\x60\x60\x60bash\n\x23 Get all resources\nkubectl get all --all-namespaces\n\n\x23 Check pod details\nkubectl get pod <pod-name> -o yaml -n <namespace>\n\n\x23 Execute shell in pod\nkubectl exec -it <pod-name> -n <namespace> -- /bin/bash\n\n\x23 Check resource usage\nkubectl top pods -n <namespace>\nkubectl top nodes\n\n\x23 View recent events\nkubectl get events --sort-by=\x27.lastTimestamp\x27 -n <namespace>\n\n\x23 Test DNS\nkubectl run -it --rm debug --image=busybox --restart=Never -- nslookup kubernetes\n\n\x23 Test connectivity\nkubectl run -it --rm debug --image=curlimages/curl --restart=Never -- curl <service-url>\n\x60\x60\x60\n"

/-- The FILES table of install.py: relative path, full literal content, in table order. -/
def FILES : List (String × String) :=
  [("README.md", readmeContent),
   (".gitignore", gitignoreContent),
   ("LICENSE", licenseContent),
   ("docs/ARCHITECTURE.md", architectureContent),
   ("docs/TROUBLESHOOTING.md", troubleshootingContent)]

/-- The fixed directory list inside create_directory_structure. -/
def directories : List String :=
  ["terraform/aws",
   "terraform/gcp",
   "kubernetes/rbac",
   "kubernetes/network-policies",
   "monitoring/prometheus",
   "monitoring/loki",
   "monitoring/gpu-exporter",
   "monitoring/deployment",
   "inference/app",
   "training/src",
   "training/docker",
   "training/scripts",
   "istio",
   "argocd/applications",
   "argocd/projects",
   ".github/workflows",
   "scripts",
   "tests",
   "docs"]

/-- Fixed segment 1 of the f-string template in create_placeholder_note. -/
def phSeg1 : String :=
  "\x23 "

/-- Fixed segment 2 of the f-string template in create_placeholder_note. -/
def phSeg2 : String :=
  "\n\n\x23\x23 \xe2\u0161\xa0\xef\xb8 IMPORTANT: Copy Content from Artifacts\n\nThis file needs content from the Claude artifacts. Please copy the corresponding content:\n\n1. Scroll up in your Claude conversation\n2. Find the artifact titled: \""

/-- Fixed segment 3 of the f-string template in create_placeholder_note. -/
def phSeg3 : String :=
  "\"\n3. Copy the entire content\n4. Paste it into this file\n\n\x23\x23 File Purpose\n\n"

/-- Fixed segment 4 of the f-string template in create_placeholder_note. -/
def phSeg4 : String :=
  "\n\n\x23\x23 What to do after copying:\n\n1. Save this file\n2. Continue with the next file in docs/SETUP_INSTRUCTIONS.md\n3. Once all files are copied, run: ./scripts/quick-start.sh\n\n---\nGenerated by AI Infrastructure Installer\n"

/-- The placeholders table of install.py main(): relative path, description, in table order. -/
def placeholders : List (String × String) :=
  [("terraform/aws/main.tf", "Project A - AWS Terraform Complete Implementation"),
   ("terraform/aws/variables.tf", "Project A - Terraform Variables"),
   ("terraform/gcp/main.tf", "Project A - GCP Terraform Complete Implementation"),
   ("terraform/gcp/variables.tf", "Project A - GCP Variables and Config"),
   ("training/src/train_distributed.py", "Project B - Complete Distributed Training Implementation"),
   ("training/docker/Dockerfile", "Project B - Docker and Kubernetes Configuration (Dockerfile section)"),
   ("kubernetes/training-job.yaml", "Project B - Docker and Kubernetes Configuration (training-job.yaml section)"),
   ("monitoring/prometheus/values.yaml", "Project C - Complete Monitoring Stack (prometheus section)"),
   ("monitoring/gpu-exporter/gpu_metrics.py", "Project C - Complete Monitoring Stack (gpu_metrics.py section)"),
   ("inference/app/main.py", "Project D - Complete AI Inference Platform"),
   ("inference/Dockerfile", "Project D - Complete AI Inference Platform (Dockerfile section)"),
   ("kubernetes/inference-deployment.yaml", "Project D - Complete AI Inference Platform (deployment.yaml section)"),
   (".github/workflows/ci-cd-pipeline.yaml", "Complete CI/CD Pipeline and GitOps Configuration"),
   ("scripts/quick-start.sh", "Automated Deployment Scripts and Documentation (quick-start.sh section)"),
   ("scripts/setup-local-dev.sh", "Automated Deployment Scripts and Documentation (setup-local-dev.sh section)")]

/-- The setup_instructions string built in main() and written to docs/SETUP_INSTRUCTIONS.md. -/
def setupInstructions : String :=
  "\x23 Setup Instructions\n\n\x23\x23 \xe2\u0153\u2026 Step 1: Installation Complete!\n\nThe project structure has been created. Now you need to copy content from the Claude artifacts.\n\n\x23\x23 \u011f\u0178\u201c\u2039 Step 2: Copy Artifact Contents\n\nEach placeholder file contains instructions. Go through them in this order:\n\n\x23\x23\x23 Infrastructure (Terraform)\n1. \x60terraform/aws/main.tf\x60\n2. \x60terraform/aws/variables.tf\x60  \n3. \x60terraform/gcp/main.tf\x60\n4. \x60terraform/gcp/variables.tf\x60\n\n\x23\x23\x23 Training Platform  \n5. \x60training/src/train_distributed.py\x60\n6. \x60training/docker/Dockerfile\x60\n7. \x60kubernetes/training-job.yaml\x60\n\n\x23\x23\x23 Monitoring\n8. \x60monitoring/prometheus/values.yaml\x60\n9. \x60monitoring/gpu-exporter/gpu_metrics.py\x60\n\n\x23\x23\x23 Inference API\n10. \x60inference/app/main.py\x60\n11. \x60inference/Dockerfile\x60\n12. \x60kubernetes/inference-deployment.yaml\x60\n\n\x23\x23\x23 CI/CD & GitOps\n13. \x60.github/workflows/ci-cd-pipeline.yaml\x60\n14. \x60scripts/quick-start.sh\x60\n15. \x60scripts/setup-local-dev.sh\x60\n\n\x23\x23 \u011f\u0178\u201d\xa7 Step 3: Configure\n\nEdit these files with your values:\n\x60\x60\x60bash\n\x23 AWS settings\nnano terraform/aws/terraform.tfvars\n\n\x23 GCP settings  \nnano terraform/gcp/terraform.tfvars\n\x60\x60\x60\n\n\x23\x23 \xe2\u0161\u2122\xef\xb8 Step 4: Setup Cloud Access\n\n\x60\x60\x60bash\n\x23 AWS\naws configure\n\n\x23 GCP\ngcloud auth login\ngcloud config set project YOUR_PROJECT_ID\n\x60\x60\x60\n\n\x23\x23 \u011f\u0178\u0161\u20ac Step 5: Deploy!\n\n\x60\x60\x60bash\n\x23 Make scripts executable\nchmod +x scripts/*.sh\n\n\x23 Run deployment\n./scripts/quick-start.sh\n\x60\x60\x60\n\n\x23\x23 \u011f\u0178\u201c\u0161 Need Help?\n\n- See \x60docs/TROUBLESHOOTING.md\x60 for common issues\n- See \x60docs/ARCHITECTURE.md\x60 for system overview  \n- See \x60docs/QUICK_REFERENCE.md\x60 for commands\n\n\x23\x23 \u011f\u0178\u2019\xa1 Tips\n\n- Start with one cloud provider (AWS or GCP) to minimize complexity\n- Use free tier accounts to minimize costs\n- Test locally with minikube before deploying to cloud\n- Read all documentation before starting\n\n---\n\n**Questions? Open an issue on GitHub!**\n"

/-- The quick_ref string built in main() and written to docs/QUICK_REFERENCE.md. -/
def quickRef : String :=
  "\x23 Quick Reference\n\n\x23\x23 \u011f\u0178\u0161\u20ac Deployment\n\x60\x60\x60bash\n./scripts/quick-start.sh                    \x23 Full deployment\n./scripts/quick-start.sh infra              \x23 Infrastructure only\n./scripts/quick-start.sh monitoring         \x23 Monitoring only\n./scripts/quick-start.sh apps               \x23 Applications only\n\x60\x60\x60\n\n\x23\x23 \u011f\u0178\u201d Kubernetes Commands\n\x60\x60\x60bash\n\x23 Get resources\nkubectl get pods --all-namespaces\nkubectl get nodes\nkubectl get services -n production\n\n\x23 Logs\nkubectl logs -f deployment/ai-inference -n production\nkubectl logs -f job/distributed-ai-training\n\n\x23 Scale\nkubectl scale deployment ai-inference --replicas=5 -n production\n\n\x23 Port forward\nkubectl port-forward svc/ai-inference-service 8000:80 -n production\nkubectl port-forward svc/prometheus-grafana 3000:80 -n monitoring\n\x60\x60\x60\n\n\x23\x23 \u011f\u0178\u201c\u0160 Access Services\n\x60\x60\x60bash\n\x23 Grafana (monitoring)\nkubectl port-forward svc/prometheus-grafana 3000:80 -n monitoring\n\x23 http://localhost:3000 (admin/admin123)\n\n\x23 AI Inference API\nkubectl port-forward svc/ai-inference-service 8000:80 -n production  \n\x23 http://localhost:8000/docs\n\n\x23 Prometheus\nkubectl port-forward svc/prometheus-kube-prometheus-prometheus 9090:9090 -n monitoring\n\x23 http://localhost:9090\n\n\x23 ArgoCD\nkubectl port-forward svc/argocd-server 8080:443 -n argocd\n\x23 https://localhost:8080\n\x60\x60\x60\n\n\x23\x23 \u011f\u0178\u2019\xb0 Cost Management\n\x60\x60\x60bash\n\x23 Scale down\nkubectl scale deployment --all --replicas=0 -n production\n\n\x23 Destroy\ncd terraform/aws && terraform destroy\ncd terraform/gcp && terraform destroy\n\x60\x60\x60\n\n\x23\x23 \u011f\u0178\u201d\xa7 Troubleshooting\n\x60\x60\x60bash\n\x23 Check pod status\nkubectl describe pod <pod-name> -n <namespace>\n\n\x23 View events\nkubectl get events --sort-by=\x27.metadata.creationTimestamp\x27 -n <namespace>\n\n\x23 Resource usage\nkubectl top nodes\nkubectl top pods --all-namespaces\n\n\x23 Update kubeconfig\naws eks update-kubeconfig --region us-west-2 --name ai-infrastructure-eks\ngcloud container clusters get-credentials ai-infrastructure-gke --zone us-central1-a\n\x60\x60\x60\n"

/-- Shallow model of the working directory as the installer sees it: the set of directories that exist (as component paths) and a journal of file writes, most recent write first. The current content of a file is its most recent write (see `readFile`). -/
structure FS where
  dirs : List (List String)
  files : List (String × String)
deriving DecidableEq

/-- Split a character list at a separator character, accumulating the current component in reverse. -/
def splitAux (sep : Char) : List Char → List Char → List String
  | [], acc => [String.mk acc.reverse]
  | c :: rest, acc =>
      if c = sep then String.mk acc.reverse :: splitAux sep rest []
      else splitAux sep rest (c :: acc)

/-- Components of a relative path, split on the slash separator, as pathlib does. -/
def splitPath (p : String) : List String := splitAux '/' p.data []

/-- Components of `Path(p).parent`: drop the last component. -/
def parentComps (p : String) : List String := (splitPath p).dropLast

/-- All nonempty prefixes of a component path, shortest first: the chain of ancestors `mkdir(parents=True)` creates, ending with the path itself. -/
def prefixesOf (comps : List String) : List (List String) :=
  (List.range comps.length).map (fun i => comps.take (i + 1))

/-- Record one directory as existing; a no-op when it already exists, as with `exist_ok=True`. -/
def addDir (d : List String) (fs : FS) : FS :=
  if d ∈ fs.dirs then fs else { fs with dirs := d :: fs.dirs }

/-- Model of `Path(...).mkdir(parents=True, exist_ok=True)`: create every missing ancestor and the directory itself. -/
def mkdirParents (comps : List String) (fs : FS) : FS :=
  (prefixesOf comps).foldl (fun s p => addDir p s) fs

/-- Model of `path.write_text(content)`: journal the write; the newest entry shadows any older one at the same path (overwrite). -/
def writeText (p c : String) (fs : FS) : FS :=
  { fs with files := (p, c) :: fs.files }

/-- Current content of the file at `p`: the most recent write, if any. -/
def readFile (fs : FS) (p : String) : Option String :=
  fs.files.lookup p

/-- Model of `create_file` in install.py: ensure the parent directory exists, then write the content. -/
def create_file (filepath content : String) (fs : FS) : FS :=
  writeText filepath content (mkdirParents (parentComps filepath) fs)

/-- The document synthesized by `create_placeholder_note` in install.py: the f-string template, whose three interpolation slots all receive the description. -/
def placeholderContent (description : String) : String :=
  phSeg1 ++ description ++ phSeg2 ++ description ++ phSeg3 ++ description ++ phSeg4

/-- Model of `create_placeholder_note` in install.py: write the synthesized placeholder document via `create_file`. -/
def create_placeholder_note (filename description : String) (fs : FS) : FS :=
  create_file filename (placeholderContent description) fs

/-- Model of `create_directory_structure` in install.py: `mkdir(parents=True, exist_ok=True)` for each entry of the fixed directory list, in order. -/
def create_directory_structure (fs : FS) : FS :=
  directories.foldl (fun s d => mkdirParents (splitPath d) s) fs

/-- The body of `main` in install.py after the confirmation gate: directories, then the literal files in table order, then the placeholder files in table order, then the two synthesized documents. -/
def runBody (fs : FS) : FS :=
  let fs1 := create_directory_structure fs
  let fs2 := FILES.foldl (fun s pc => create_file pc.1 pc.2 s) fs1
  let fs3 := placeholders.foldl (fun s pd => create_placeholder_note pd.1 pd.2 s) fs2
  let fs4 := create_file "docs/SETUP_INSTRUCTIONS.md" setupInstructions fs3
  create_file "docs/QUICK_REFERENCE.md" quickRef fs4

/-- Model of `Path(".git").exists()`: true when the working directory holds an entry named `.git`, whether a directory or a file. -/
def gitExists (fs : FS) : Bool :=
  fs.dirs.contains [".git"] || (fs.files.lookup ".git").isSome

/-- Model of Python's `str.lower` as used on the prompt response (ASCII lowering suffices for the comparison with "y"). -/
def lowerStr (s : String) : String := String.mk (s.data.map Char.toLower)

/-- Outcome of one invocation of the installer: final filesystem, process exit code, whether the confirmation prompt was shown, and whether the run stopped at the gate (`sys.exit(0)`). -/
structure RunResult where
  fs : FS
  exitCode : Nat
  prompted : Bool
  aborted : Bool
deriving DecidableEq

/-- Model of `main` in install.py: skip the prompt when `.git` exists; otherwise prompt and proceed only when the lowercased response is exactly "y", else `sys.exit(0)` without writing anything. -/
def main (fs : FS) (response : String) : RunResult :=
  if gitExists fs then
    { fs := runBody fs, exitCode := 0, prompted := false, aborted := false }
  else if lowerStr response == "y" then
    { fs := runBody fs, exitCode := 0, prompted := true, aborted := false }
  else
    { fs := fs, exitCode := 0, prompted := true, aborted := true }

/-- One filesystem operation the installer performs. -/
inductive Op where
  | mkdir (comps : List String)
  | write (path content : String)
deriving DecidableEq

/-- Apply one operation to the filesystem model. -/
def applyOp (fs : FS) : Op → FS
  | Op.mkdir c => mkdirParents c fs
  | Op.write p c => writeText p c fs

/-- Apply a list of operations left to right. -/
def applyOps (ops : List Op) (fs : FS) : FS :=
  ops.foldl applyOp fs

/-- The operations `create_file` performs for one entry: ensure the parent directory, then write. -/
def fileOps (p c : String) : List Op :=
  [Op.mkdir (parentComps p), Op.write p c]

/-- The spec's sequencing contract as an explicit operation list: all directories first, then every literal-file entry in table order, then every placeholder entry in table order, then the two synthesized documents. -/
def orderedScript : List Op :=
  directories.map (fun d => Op.mkdir (splitPath d))
    ++ FILES.flatMap (fun pc => fileOps pc.1 pc.2)
    ++ placeholders.flatMap (fun pd => fileOps pd.1 (placeholderContent pd.2))
    ++ fileOps "docs/SETUP_INSTRUCTIONS.md" setupInstructions
    ++ fileOps "docs/QUICK_REFERENCE.md" quickRef

/-- Number of occurrences of a nonempty needle in a character list (scanning every position). -/
def countSub (needle : List Char) : List Char → Nat
  | [] => 0
  | c :: rest => (if needle.isPrefixOf (c :: rest) then 1 else 0) + countSub needle rest

/-- Number of occurrences of a needle string in a haystack string. -/
def countOccurrences (needle s : String) : Nat :=
  countSub needle.data s.data

/-- A working directory with nothing in it. -/
def emptyFS : FS := { dirs := [], files := [] }

/-- A working directory holding only a `.git` directory. -/
def gitFS : FS := { dirs := [[".git"]], files := [] }
/-- Every file write a completed run performs, most recent first: the two synthesized documents, the placeholder files in reverse table order, then the literal files in reverse table order. -/
def writesList : List (String × String) :=
  [("docs/QUICK_REFERENCE.md", quickRef),
   ("docs/SETUP_INSTRUCTIONS.md", setupInstructions),
   ("scripts/setup-local-dev.sh", placeholderContent "Automated Deployment Scripts and Documentation (setup-local-dev.sh section)"),
   ("scripts/quick-start.sh", placeholderContent "Automated Deployment Scripts and Documentation (quick-start.sh section)"),
   (".github/workflows/ci-cd-pipeline.yaml", placeholderContent "Complete CI/CD Pipeline and GitOps Configuration"),
   ("kubernetes/inference-deployment.yaml", placeholderContent "Project D - Complete AI Inference Platform (deployment.yaml section)"),
   ("inference/Dockerfile", placeholderContent "Project D - Complete AI Inference Platform (Dockerfile section)"),
   ("inference/app/main.py", placeholderContent "Project D - Complete AI Inference Platform"),
   ("monitoring/gpu-exporter/gpu_metrics.py", placeholderContent "Project C - Complete Monitoring Stack (gpu_metrics.py section)"),
   ("monitoring/prometheus/values.yaml", placeholderContent "Project C - Complete Monitoring Stack (prometheus section)"),
   ("kubernetes/training-job.yaml", placeholderContent "Project B - Docker and Kubernetes Configuration (training-job.yaml section)"),
   ("training/docker/Dockerfile", placeholderContent "Project B - Docker and Kubernetes Configuration (Dockerfile section)"),
   ("training/src/train_distributed.py", placeholderContent "Project B - Complete Distributed Training Implementation"),
   ("terraform/gcp/variables.tf", placeholderContent "Project A - GCP Variables and Config"),
   ("terraform/gcp/main.tf", placeholderContent "Project A - GCP Terraform Complete Implementation"),
   ("terraform/aws/variables.tf", placeholderContent "Project A - Terraform Variables"),
   ("terraform/aws/main.tf", placeholderContent "Project A - AWS Terraform Complete Implementation"),
   ("docs/TROUBLESHOOTING.md", troubleshootingContent),
   ("docs/ARCHITECTURE.md", architectureContent),
   ("LICENSE", licenseContent),
   (".gitignore", gitignoreContent),
   ("README.md", readmeContent)]
/-- Writing a file never changes which directories exist. -/
theorem dirs_writeText (p c : String) (fs : FS) : (writeText p c fs).dirs = fs.dirs := rfl

/-- Recording a directory never changes the file journal. -/
theorem files_addDir (y : List String) (fs : FS) : (addDir y fs).files = fs.files := by
  unfold addDir; split <;> rfl

/-- Folding `addDir` over any list never changes the file journal. -/
theorem files_foldAdd (l : List (List String)) (fs : FS) :
    (l.foldl (fun s p => addDir p s) fs).files = fs.files := by
  induction l generalizing fs with
  | nil => rfl
  | cons a t ih => rw [List.foldl_cons, ih, files_addDir]

/-- Creating directories never changes the file journal. -/
theorem files_mkdirParents (c : List String) (fs : FS) :
    (mkdirParents c fs).files = fs.files := files_foldAdd _ _

/-- Lookup distributes over list append, preferring the left list. -/
theorem lookup_append (k : String) (l1 l2 : List (String × String)) :
    List.lookup k (l1 ++ l2) = (List.lookup k l1).or (List.lookup k l2) := by
  induction l1 with
  | nil => rfl
  | cons e t ih =>
    obtain ⟨a, b⟩ := e
    rw [List.cons_append]
    simp only [List.lookup]
    cases k == a
    · simpa using ih
    · rfl

/-- If the left option is a hit, the disjunction is that hit. -/
theorem or_some_left {α : Type} {a : Option α} {x : α} (b : Option α) (h : a = some x) :
    a.or b = some x := by rw [h]; rfl

/-- Or on options drops a duplicated left argument. -/
theorem option_or_absorb {α : Type} (a b : Option α) : a.or (a.or b) = a.or b := by
  cases a <;> rfl

/-- `create_file` prepends exactly one entry to the file journal. -/
theorem files_create_file (p c : String) (fs : FS) :
    (create_file p c fs).files = (p, c) :: fs.files := by
  unfold create_file writeText
  simp only []
  rw [files_mkdirParents]

/-- The literal-file loop prepends its table entries, most recent first. -/
theorem files_foldCreate (l : List (String × String)) (fs : FS) :
    (l.foldl (fun s pc => create_file pc.1 pc.2 s) fs).files
      = (l.reverse.map (fun pc => (pc.1, pc.2))) ++ fs.files := by
  induction l generalizing fs with
  | nil => simp
  | cons a t ih =>
    rw [List.foldl_cons, ih, files_create_file]
    simp [List.append_assoc]

/-- The placeholder loop prepends the synthesized documents, most recent first. -/
theorem files_foldPlaceholder (l : List (String × String)) (fs : FS) :
    (l.foldl (fun s pd => create_placeholder_note pd.1 pd.2 s) fs).files
      = (l.reverse.map (fun pd => (pd.1, placeholderContent pd.2))) ++ fs.files := by
  induction l generalizing fs with
  | nil => simp
  | cons a t ih =>
    rw [List.foldl_cons, ih]
    have hstep : (create_placeholder_note a.1 a.2 fs).files
        = (a.1, placeholderContent a.2) :: fs.files := files_create_file _ _ _
    rw [hstep]
    simp [List.append_assoc]

/-- Directory creation leaves the file journal alone. -/
theorem files_cds (fs : FS) : (create_directory_structure fs).files = fs.files := by
  unfold create_directory_structure
  generalize directories = l
  induction l generalizing fs with
  | nil => rfl
  | cons a t ih => rw [List.foldl_cons, ih, files_mkdirParents]

/-- After the gated body runs, the file journal is the fixed write list on top of the initial journal. -/
theorem files_runBody (fs : FS) : (runBody fs).files = writesList ++ fs.files := by
  show (create_file "docs/QUICK_REFERENCE.md" quickRef
      (create_file "docs/SETUP_INSTRUCTIONS.md" setupInstructions
        (placeholders.foldl (fun s pd => create_placeholder_note pd.1 pd.2 s)
          (FILES.foldl (fun s pc => create_file pc.1 pc.2 s)
            (create_directory_structure fs))))).files = writesList ++ fs.files
  rw [files_create_file, files_create_file, files_foldPlaceholder, files_foldCreate, files_cds]
  rfl

/-- Reading any path after the body ran: the fixed writes shadow the initial journal. -/
theorem readFile_runBody (fs : FS) (p : String) :
    readFile (runBody fs) p = (List.lookup p writesList).or (readFile fs p) := by
  unfold readFile
  rw [files_runBody, lookup_append]

/-- When a `.git` entry exists the gate is passed without a prompt. -/
theorem main_git (fs : FS) (r : String) (h : gitExists fs = true) :
    main fs r = { fs := runBody fs, exitCode := 0, prompted := false, aborted := false } := by
  simp [main, h]

/-- Without a `.git` entry, a response lowercasing to "y" passes the gate after the prompt. -/
theorem main_yes (fs : FS) (r : String) (h1 : gitExists fs = false) (h2 : lowerStr r = "y") :
    main fs r = { fs := runBody fs, exitCode := 0, prompted := true, aborted := false } := by
  simp [main, h1, h2]

/-- Without a `.git` entry, any other response stops at the gate via `sys.exit(0)`. -/
theorem main_decline (fs : FS) (r : String) (h1 : gitExists fs = false) (h2 : lowerStr r ≠ "y") :
    main fs r = { fs := fs, exitCode := 0, prompted := true, aborted := true } := by
  simp [main, h1, h2]

/-- Whenever the run proceeds, the final filesystem is the body applied to the initial one. -/
theorem main_fs_eq_runBody (fs : FS) (r : String)
    (h : gitExists fs = true ∨ lowerStr r = "y") : (main fs r).fs = runBody fs := by
  rcases h with h | h
  · rw [main_git fs r h]
  · cases hg : gitExists fs
    · rw [main_yes fs r hg h]
    · rw [main_git fs r hg]

/-- Membership after recording one directory. -/
theorem mem_dirs_addDir {x y : List String} {fs : FS} :
    x ∈ (addDir y fs).dirs ↔ x = y ∨ x ∈ fs.dirs := by
  unfold addDir
  by_cases h : y ∈ fs.dirs
  · rw [if_pos h]
    exact ⟨Or.inr, fun hx => hx.elim (fun he => he ▸ h) id⟩
  · rw [if_neg h]
    simp [List.mem_cons]

/-- Membership after folding `addDir` over a list. -/
theorem mem_dirs_foldAdd {x : List String} (l : List (List String)) (fs : FS) :
    x ∈ (l.foldl (fun s p => addDir p s) fs).dirs ↔ x ∈ l ∨ x ∈ fs.dirs := by
  induction l generalizing fs with
  | nil => simp
  | cons a t ih =>
    rw [List.foldl_cons, ih, mem_dirs_addDir, List.mem_cons]
    tauto

/-- Membership after `mkdir(parents=True, exist_ok=True)`: the prefixes now exist, everything else is untouched. -/
theorem mem_dirs_mkdirParents {x : List String} (c : List String) (fs : FS) :
    x ∈ (mkdirParents c fs).dirs ↔ x ∈ prefixesOf c ∨ x ∈ fs.dirs :=
  mem_dirs_foldAdd _ _

/-- Membership after `create_file`: only the parent chain is added. -/
theorem mem_dirs_create_file {x : List String} (p c : String) (fs : FS) :
    x ∈ (create_file p c fs).dirs ↔ x ∈ prefixesOf (parentComps p) ∨ x ∈ fs.dirs := by
  unfold create_file
  rw [dirs_writeText, mem_dirs_mkdirParents]

/-- The literal-file loop never removes directories. -/
theorem mem_dirs_foldCreate {x : List String} (l : List (String × String)) (fs : FS)
    (h : x ∈ fs.dirs) :
    x ∈ (l.foldl (fun s pc => create_file pc.1 pc.2 s) fs).dirs := by
  induction l generalizing fs with
  | nil => exact h
  | cons a t ih =>
    rw [List.foldl_cons]
    exact ih _ ((mem_dirs_create_file _ _ _).mpr (Or.inr h))

/-- The placeholder loop never removes directories. -/
theorem mem_dirs_foldPlaceholder {x : List String} (l : List (String × String)) (fs : FS)
    (h : x ∈ fs.dirs) :
    x ∈ (l.foldl (fun s pd => create_placeholder_note pd.1 pd.2 s) fs).dirs := by
  induction l generalizing fs with
  | nil => exact h
  | cons a t ih =>
    rw [List.foldl_cons]
    refine ih _ ?_
    show x ∈ (create_file a.1 (placeholderContent a.2) fs).dirs
    exact (mem_dirs_create_file _ _ _).mpr (Or.inr h)

/-- The directory loop never removes directories. -/
theorem mem_dirs_foldMkdir_mono {x : List String} (l : List String) (fs : FS)
    (h : x ∈ fs.dirs) :
    x ∈ (l.foldl (fun s y => mkdirParents (splitPath y) s) fs).dirs := by
  induction l generalizing fs with
  | nil => exact h
  | cons a t ih =>
    rw [List.foldl_cons]
    exact ih _ (mem_dirs_mkdirParents (splitPath a) fs |>.mpr (Or.inr h))

/-- The directory loop creates every listed directory together with its ancestors. -/
theorem mem_dirs_foldMkdir {x : List String} {d : String} (l : List String) :
    ∀ (fs : FS), d ∈ l → x ∈ prefixesOf (splitPath d) →
      x ∈ (l.foldl (fun s y => mkdirParents (splitPath y) s) fs).dirs := by
  induction l with
  | nil => intro fs hd _; cases hd
  | cons a t ih =>
    intro fs hd hp
    rw [List.foldl_cons]
    rcases List.mem_cons.mp hd with rfl | ht
    · exact mem_dirs_foldMkdir_mono t _ ((mem_dirs_mkdirParents (splitPath d) fs).mpr (Or.inl hp))
    · exact ih _ ht hp

set_option maxRecDepth 10000

set_option maxHeartbeats 2000000

/-- A completed body creates every listed directory together with all its ancestors. -/
theorem mem_dirs_runBody {x : List String} {d : String} (fs : FS)
    (hd : d ∈ directories) (hp : x ∈ prefixesOf (splitPath d)) :
    x ∈ (runBody fs).dirs := by
  simp only [runBody]
  refine (mem_dirs_create_file _ _ _).mpr (Or.inr ?_)
  refine (mem_dirs_create_file _ _ _).mpr (Or.inr ?_)
  refine mem_dirs_foldPlaceholder _ _ ?_
  refine mem_dirs_foldCreate _ _ ?_
  exact mem_dirs_foldMkdir directories fs hd hp

/-- Folding `addDir` over directories that all exist changes nothing. -/
theorem foldAdd_noop (l : List (List String)) (fs : FS) (h : ∀ p ∈ l, p ∈ fs.dirs) :
    l.foldl (fun s p => addDir p s) fs = fs := by
  induction l with
  | nil => rfl
  | cons a t ih =>
    rw [List.foldl_cons]
    have ha : addDir a fs = fs := by
      unfold addDir
      rw [if_pos (h a (List.mem_cons_self a t))]
    rw [ha]
    exact ih fun p hp => h p (List.mem_cons_of_mem a hp)

/-- `mkdir(parents=True, exist_ok=True)` is a no-op when the directory and its ancestors already exist; in particular it never fails on an existing directory. -/
theorem mkdirParents_noop (c : List String) (fs : FS)
    (h : ∀ p ∈ prefixesOf c, p ∈ fs.dirs) : mkdirParents c fs = fs :=
  foldAdd_noop _ _ h

/-- Applying an appended script is applying the two halves in sequence. -/
theorem applyOps_append (l1 l2 : List Op) (fs : FS) :
    applyOps (l1 ++ l2) fs = applyOps l2 (applyOps l1 fs) := by
  unfold applyOps
  exact List.foldl_append _ _ _ _

/-- The mkdir segment of the script is the directory loop. -/
theorem applyOps_mkdirMap (l : List String) (fs : FS) :
    applyOps (l.map (fun d => Op.mkdir (splitPath d))) fs
      = l.foldl (fun s d => mkdirParents (splitPath d) s) fs := by
  induction l generalizing fs with
  | nil => rfl
  | cons a t ih =>
    simp only [List.map_cons, applyOps, List.foldl_cons, applyOp]
    simpa only [applyOps] using ih (mkdirParents (splitPath a) fs)

/-- Applying the two operations of one file entry is `create_file`. -/
theorem applyOps_fileOps (p c : String) (fs : FS) :
    applyOps (fileOps p c) fs = create_file p c fs := rfl

/-- The literal segment of the script is the literal-file loop. -/
theorem applyOps_fileFlat (l : List (String × String)) (fs : FS) :
    applyOps (l.flatMap (fun pc => fileOps pc.1 pc.2)) fs
      = l.foldl (fun s pc => create_file pc.1 pc.2 s) fs := by
  induction l generalizing fs with
  | nil => rfl
  | cons a t ih =>
    rw [List.flatMap_cons, applyOps_append, applyOps_fileOps, List.foldl_cons]
    exact ih _

/-- The placeholder segment of the script is the placeholder loop. -/
theorem applyOps_phFlat (l : List (String × String)) (fs : FS) :
    applyOps (l.flatMap (fun pd => fileOps pd.1 (placeholderContent pd.2))) fs
      = l.foldl (fun s pd => create_placeholder_note pd.1 pd.2 s) fs := by
  induction l generalizing fs with
  | nil => rfl
  | cons a t ih =>
    rw [List.flatMap_cons, applyOps_append, applyOps_fileOps, List.foldl_cons]
    exact ih _

/-- The body performs exactly the spec-ordered operation script. -/
theorem runBody_eq_script (fs : FS) : runBody fs = applyOps orderedScript fs := by
  simp only [runBody, orderedScript]
  rw [applyOps_append, applyOps_append, applyOps_append, applyOps_append,
    applyOps_mkdirMap, applyOps_fileFlat, applyOps_phFlat, applyOps_fileOps, applyOps_fileOps]
  rfl

/-- C1: if no `.git` repository marker is present in the working directory and the user declines the confirmation prompt, the program exits without creating any file or directory: the filesystem state is exactly what it was before the run. -/
theorem declined_prompt_leaves_filesystem_unchanged (fs : FS) (r : String)
    (h1 : gitExists fs = false) (h2 : lowerStr r ≠ "y") :
    (main fs r).fs = fs := by
  rw [main_decline fs r h1 h2]

/-- Witness for C1 at the empty working directory with response "n". -/
theorem declined_prompt_leaves_filesystem_unchanged_witness :
    gitExists emptyFS = false ∧ lowerStr "n" ≠ "y" ∧ (main emptyFS "n").fs = emptyFS :=
  ⟨by decide, by decide,
    declined_prompt_leaves_filesystem_unchanged emptyFS "n" (by decide) (by decide)⟩

/-- C2: for every (path, content) pair in the literal-file table, after a completed run the file at the path exists and its contents equal the table content exactly, whatever file may have been there before (overwrite, not merge). -/
theorem literal_files_written_exactly (fs : FS) (r : String)
    (h : gitExists fs = true ∨ lowerStr r = "y") :
    ∀ pc ∈ FILES, readFile (main fs r).fs pc.1 = some pc.2 := by
  intro pc hpc
  rw [main_fs_eq_runBody fs r h, readFile_runBody]
  fin_cases hpc <;> exact or_some_left _ rfl

/-- Witness for C2: after a run over a repository-marked directory, README.md holds exactly the embedded template. -/
theorem literal_files_written_exactly_witness :
    gitExists gitFS = true ∧ readFile (main gitFS "q").fs "README.md" = some readmeContent :=
  ⟨by decide,
    literal_files_written_exactly gitFS "q" (Or.inl (by decide)) ("README.md", readmeContent)
      (by simp [FILES])⟩

/-- C3 counterexample: at the concrete description "@@@" the synthesized placeholder document embeds the description three times, not exactly twice as claimed. -/
theorem placeholder_embeds_twice_counterexample :
    (readFile (create_placeholder_note "note.md" "@@@" emptyFS) "note.md").map
        (countOccurrences "@@@") = some 3
    ∧ (readFile (create_placeholder_note "note.md" "@@@" emptyFS) "note.md").map
        (countOccurrences "@@@") ≠ some 2 := by
  constructor
  · decide
  · decide

/-- C3 amended: the placeholder writer synthesizes a fixed template embedding the description exactly three times: as the opening section title, quoted as the artifact title inside the copy instructions, and as the File Purpose body paragraph. -/
theorem placeholder_embeds_description_three_times :
    (∀ (fs : FS) (p d : String),
      readFile (create_placeholder_note p d fs) p
        = some (phSeg1 ++ d ++ phSeg2 ++ d ++ phSeg3 ++ d ++ phSeg4))
    ∧ phSeg1 = "\x23 "
    ∧ countOccurrences "@@@" (placeholderContent "@@@") = 3 := by
  refine ⟨?_, rfl, by decide⟩
  intro fs p d
  have h1 : (create_placeholder_note p d fs).files
      = (p, placeholderContent d) :: fs.files := files_create_file _ _ _
  unfold readFile
  rw [h1]
  simp only [List.lookup, beq_self_eq_true]
  rfl

/-- C4 counterexample: declining the prompt triggers `sys.exit(0)`; the exit status is 0, the same success status as a completed run, not a status indicating abnormal termination. -/
theorem decline_exit_status_counterexample :
    (main emptyFS "n").aborted = true ∧ (main emptyFS "n").exitCode = 0 := by
  constructor
  · decide
  · decide

/-- C4 amended: when the user declines the confirmation prompt the program exits early with status 0 (normal-termination status, via `sys.exit(0)`) and writes nothing; when the run proceeds it completes all writes and exits normally with status 0. -/
theorem decline_exits_with_status_zero (fs : FS) (r : String) :
    ((gitExists fs = false ∧ lowerStr r ≠ "y") →
      (main fs r).aborted = true ∧ (main fs r).exitCode = 0 ∧ (main fs r).fs = fs)
    ∧ ((gitExists fs = true ∨ lowerStr r = "y") →
      (main fs r).aborted = false ∧ (main fs r).exitCode = 0
        ∧ (main fs r).fs = runBody fs) := by
  constructor
  · rintro ⟨h1, h2⟩
    rw [main_decline fs r h1 h2]
    exact ⟨rfl, rfl, rfl⟩
  · intro h
    rcases h with h | h
    · rw [main_git fs r h]
      exact ⟨rfl, rfl, rfl⟩
    · cases hg : gitExists fs
      · rw [main_yes fs r hg h]
        exact ⟨rfl, rfl, rfl⟩
      · rw [main_git fs r hg]
        exact ⟨rfl, rfl, rfl⟩

/-- Witness for amended C4 at the empty working directory with response "n". -/
theorem decline_exits_with_status_zero_witness :
    (gitExists emptyFS = false ∧ lowerStr "n" ≠ "y")
    ∧ ((main emptyFS "n").aborted = true ∧ (main emptyFS "n").exitCode = 0
        ∧ (main emptyFS "n").fs = emptyFS) :=
  ⟨⟨by decide, by decide⟩,
    (decline_exits_with_status_zero emptyFS "n").1 ⟨by decide, by decide⟩⟩

/-- C5: running the full flow twice in succession, with confirmation granted both times, leaves every file with the same content as running it once: no accumulation, no duplication. -/
theorem run_twice_equals_run_once (fs : FS) (r1 r2 : String)
    (h1 : gitExists fs = true ∨ lowerStr r1 = "y")
    (h2 : gitExists (main fs r1).fs = true ∨ lowerStr r2 = "y") :
    ∀ p, readFile (main (main fs r1).fs r2).fs p = readFile (main fs r1).fs p := by
  intro p
  rw [main_fs_eq_runBody _ _ h2, main_fs_eq_runBody _ _ h1]
  simp only [readFile_runBody]
  exact option_or_absorb _ _

/-- Witness for C5: two consecutive confirmed runs agree on README.md. -/
theorem run_twice_equals_run_once_witness :
    lowerStr "y" = "y"
    ∧ readFile (main (main gitFS "y").fs "y").fs "README.md"
        = readFile (main gitFS "y").fs "README.md" :=
  ⟨by decide,
    run_twice_equals_run_once gitFS "y" "y" (Or.inr (by decide)) (Or.inr (by decide))
      "README.md"⟩

/-- C6: after a completed run every directory of the fixed list exists together with all its ancestors, and directory creation is a no-op (never a failure) when the directory already exists. -/
theorem directories_created_and_mkdir_idempotent (fs : FS) (r : String)
    (h : gitExists fs = true ∨ lowerStr r = "y") :
    (∀ d ∈ directories, ∀ p ∈ prefixesOf (splitPath d), p ∈ (main fs r).fs.dirs)
    ∧ (∀ (c : List String) (g : FS),
        (∀ p ∈ prefixesOf c, p ∈ g.dirs) → mkdirParents c g = g) := by
  constructor
  · intro d hd p hp
    rw [main_fs_eq_runBody fs r h]
    exact mem_dirs_runBody fs hd hp
  · exact mkdirParents_noop

/-- Witness for C6: terraform/aws exists after a run over a repository-marked directory. -/
theorem directories_created_and_mkdir_idempotent_witness :
    gitExists gitFS = true ∧ ["terraform", "aws"] ∈ (main gitFS "q").fs.dirs :=
  ⟨by decide,
    (directories_created_and_mkdir_idempotent gitFS "q" (Or.inl (by decide))).1
      "terraform/aws" (by decide) ["terraform", "aws"] (by decide)⟩

/-- Helper shared with C7: when the journal hit for a path is a synthesized placeholder document, the description occurs in the content as an infix. -/
theorem placeholder_lookup_shape (fs : FS) (p d : String)
    (hlk : List.lookup p writesList = some (placeholderContent d)) :
    ∃ pre post, readFile (runBody fs) p = some (pre ++ d ++ post) := by
  refine ⟨phSeg1 ++ d ++ phSeg2 ++ d ++ phSeg3, phSeg4, ?_⟩
  rw [readFile_runBody, or_some_left _ hlk]
  rfl

/-- C7: after a completed run every placeholder file exists and contains its description verbatim; in particular training/src/train_distributed.py contains "Project B - Complete Distributed Training Implementation". -/
theorem placeholder_files_contain_description (fs : FS) (r : String)
    (h : gitExists fs = true ∨ lowerStr r = "y") :
    (∀ pd ∈ placeholders,
      ∃ pre post, readFile (main fs r).fs pd.1 = some (pre ++ pd.2 ++ post))
    ∧ (∃ pre post, readFile (main fs r).fs "training/src/train_distributed.py"
        = some (pre ++ "Project B - Complete Distributed Training Implementation" ++ post)) := by
  have key : ∀ pd ∈ placeholders,
      ∃ pre post, readFile (main fs r).fs pd.1 = some (pre ++ pd.2 ++ post) := by
    intro pd hpd
    rw [main_fs_eq_runBody fs r h]
    fin_cases hpd <;> exact placeholder_lookup_shape fs _ _ rfl
  refine ⟨key, ?_⟩
  exact key ("training/src/train_distributed.py",
    "Project B - Complete Distributed Training Implementation") (by simp [placeholders])

/-- Witness for C7: the named training file contains its description after a run. -/
theorem placeholder_files_contain_description_witness :
    gitExists gitFS = true
    ∧ ∃ pre post, readFile (main gitFS "q").fs "training/src/train_distributed.py"
        = some (pre ++ "Project B - Complete Distributed Training Implementation" ++ post) :=
  ⟨by decide, (placeholder_files_contain_description gitFS "q" (Or.inl (by decide))).2⟩

/-- C8: a completed run performs exactly the spec-ordered script: all directories first, then every literal-file entry in table order, then every placeholder entry in table order, then the two synthesized documents. -/
theorem writes_follow_fixed_order (fs : FS) (r : String)
    (h : gitExists fs = true ∨ lowerStr r = "y") :
    (main fs r).fs = applyOps orderedScript fs := by
  rw [main_fs_eq_runBody fs r h]
  exact runBody_eq_script fs

/-- Witness for C8 over a repository-marked directory. -/
theorem writes_follow_fixed_order_witness :
    gitExists gitFS = true ∧ (main gitFS "q").fs = applyOps orderedScript gitFS :=
  ⟨by decide, writes_follow_fixed_order gitFS "q" (Or.inl (by decide))⟩

/-- C9: at the confirmation prompt the run proceeds exactly when the lowercased input is "y"; any other response, "yes", "n", "no" or an empty line included, exits without writing anything, with no special handling of "n" or "no". -/
theorem proceeds_iff_lowercased_response_is_y (fs : FS) (r : String)
    (h : gitExists fs = false) :
    ((main fs r).aborted = false ↔ lowerStr r = "y")
    ∧ (lowerStr r ≠ "y" → (main fs r).fs = fs ∧ (main fs r).aborted = true) := by
  by_cases hy : lowerStr r = "y"
  · rw [main_yes fs r h hy]
    simp [hy]
  · rw [main_decline fs r h hy]
    simp [hy]

/-- Witness for C9: the response "yes" does not pass the gate. -/
theorem proceeds_iff_lowercased_response_is_y_witness :
    gitExists emptyFS = false
    ∧ ((main emptyFS "yes").aborted = false ↔ lowerStr "yes" = "y") :=
  ⟨by decide, (proceeds_iff_lowercased_response_is_y emptyFS "yes" (by decide)).1⟩

/-- C10: the confirmation prompt is skipped exactly when an entry named `.git` exists in the working directory, directory or regular file alike; when it exists, the program performs all writes with no user interaction. -/
theorem prompt_skipped_iff_git_marker_exists (fs : FS) (r : String) :
    ((main fs r).prompted = false ↔ ([".git"] ∈ fs.dirs ∨ ∃ c, readFile fs ".git" = some c))
    ∧ (([".git"] ∈ fs.dirs ∨ ∃ c, readFile fs ".git" = some c) →
        (main fs r).prompted = false ∧ (main fs r).fs = runBody fs
          ∧ (main fs r).aborted = false) := by
  have hiff : gitExists fs = true ↔ ([".git"] ∈ fs.dirs ∨ ∃ c, readFile fs ".git" = some c) := by
    unfold gitExists
    simp only [Bool.or_eq_true, Option.isSome_iff_exists]
    constructor
    · rintro (hc | ⟨c, hc⟩)
      · exact Or.inl (List.elem_iff.mp hc)
      · exact Or.inr ⟨c, hc⟩
    · rintro (hm | ⟨c, hc⟩)
      · exact Or.inl (List.elem_iff.mpr hm)
      · exact Or.inr ⟨c, hc⟩
  cases hg : gitExists fs
  · have hnot : ¬([".git"] ∈ fs.dirs ∨ ∃ c, readFile fs ".git" = some c) := by
      intro hc
      have hgt := hiff.mpr hc
      rw [hg] at hgt
      cases hgt
    have hpr : (main fs r).prompted = true := by
      unfold main
      rw [hg, if_neg Bool.false_ne_true]
      split <;> rfl
    constructor
    · refine iff_of_false ?_ hnot
      rw [hpr]
      decide
    · intro hc
      exact absurd hc hnot
  · rw [main_git fs r hg]
    constructor
    · exact iff_of_true rfl (hiff.mp hg)
    · intro _
      exact ⟨rfl, rfl, rfl⟩

/-- Witness for C10: with a `.git` directory present, no prompt is shown and the body runs. -/
theorem prompt_skipped_iff_git_marker_exists_witness :
    [".git"] ∈ gitFS.dirs
    ∧ ((main gitFS "n").prompted = false ∧ (main gitFS "n").fs = runBody gitFS
        ∧ (main gitFS "n").aborted = false) :=
  ⟨by decide, (prompt_skipped_iff_git_marker_exists gitFS "n").2 (Or.inl (by decide))⟩

end Install
